import Mathlib

/-!
Verification of the FreeCAD Assembly test scaffolding
(`src/Mod/Assembly/AssemblyTests/mocks/MockGui.py` and
`src/Mod/Assembly/AssemblyTests/TestCommandInsertLink.py`).

The mock classes are embedded directly from the Python source.  A Python
dict is embedded as an association list on which assignment prepends a
binding and lookup returns the most recent binding for a key: this is
observationally equivalent to CPython dict `d[k] = v` / `d.get(k, default)`
for the operations the mocks perform.  A Python value that may be `None`
is embedded as an `Option`: `none` is Python `None`, `some v` is the
value `v`.
-/

namespace MockGui

/-- Embedding of Python `d.get(k)`: the most recent binding of `k`,
or `none` when `k` was never assigned. -/
def dictGet {K V : Type} [DecidableEq K] : List (K × V) → K → Option V
  | [], _ => none
  | (k, v) :: rest, key => if key = k then some v else dictGet rest key

/-- Embedding of Python `d[k] = v`: record the new binding; `dictGet`
sees the newest binding first, so this realises dict assignment. -/
def dictSet {K V : Type} (d : List (K × V)) (k : K) (v : V) : List (K × V) :=
  (k, v) :: d

/-- Embedding of `MockQTreeWidgetItem` (identical in `MockGui.py` lines
48-87 and `TestCommandInsertLink.py` lines 41-74): per-column text map
`text_values`, `(column, role)`-keyed data map `data_values`, and the
child list `_children`.  Columns, roles, stored data and children are
arbitrary Python objects, hence type parameters. -/
structure MockQTreeWidgetItem (Col Role Val Child : Type) where
  text_values : List (Col × String)
  data_values : List ((Col × Role) × Val)
  _children : List Child

namespace MockQTreeWidgetItem

variable {Col Role Val Child : Type}

/-- `__init__`: `self.text_values = {}`, `self.data_values = {}`,
`self._children = []`. -/
def init : MockQTreeWidgetItem Col Role Val Child :=
  { text_values := [], data_values := [], _children := [] }

/-- `setText(self, column, text)`: `self.text_values[column] = text`. -/
def setText (item : MockQTreeWidgetItem Col Role Val Child) (column : Col)
    (t : String) : MockQTreeWidgetItem Col Role Val Child :=
  { item with text_values := dictSet item.text_values column t }

/-- `text(self, column)`: `return self.text_values.get(column, "")`. -/
def text [DecidableEq Col] (item : MockQTreeWidgetItem Col Role Val Child)
    (column : Col) : String :=
  (dictGet item.text_values column).getD ""

/-- `setData(self, column, role, data)`:
`self.data_values[(column, role)] = data`. -/
def setData (item : MockQTreeWidgetItem Col Role Val Child) (column : Col)
    (role : Role) (d : Val) : MockQTreeWidgetItem Col Role Val Child :=
  { item with data_values := dictSet item.data_values (column, role) d }

/-- `data(self, column, role)`:
`return self.data_values.get((column, role))`; `none` is Python `None`. -/
def data [DecidableEq Col] [DecidableEq Role]
    (item : MockQTreeWidgetItem Col Role Val Child) (column : Col)
    (role : Role) : Option Val :=
  dictGet item.data_values (column, role)

/-- `childCount(self)`: `return len(self._children)`. -/
def childCount (item : MockQTreeWidgetItem Col Role Val Child) : Nat :=
  item._children.length

/-- `child(self, index)`: `if 0 <= index < len(self._children): return
self._children[index]` else `return None`.  The index is a Python int,
hence `Int`. -/
def child (item : MockQTreeWidgetItem Col Role Val Child) (index : Int) :
    Option Child :=
  if 0 ≤ index ∧ index < (item._children.length : Int) then
    item._children[index.toNat]?
  else
    none

/-- `addChild(self, child)`: `self._children.append(child)`. -/
def addChild (item : MockQTreeWidgetItem Col Role Val Child) (c : Child) :
    MockQTreeWidgetItem Col Role Val Child :=
  { item with _children := item._children ++ [c] }

end MockQTreeWidgetItem

/-- `MockSignal` (`MockGui.py` lines 90-94): a class with no instance
state. -/
structure MockSignal where

/-- `connect(self, _slot)`: body is `pass`, i.e. it returns Python `None`
and changes nothing.  The embedding returns the (unchanged) signal state
together with the returned value; `none` is Python `None`. -/
def MockSignal.connect {Slot : Type} (sig : MockSignal) (_slot : Slot) :
    MockSignal × Option Unit :=
  (sig, none)

/-- Embedding of `MockPartList` (`MockGui.py` lines 146-187): the only
instance state the claims touch is the top-level item list `_items`
(the two `MockSignal` fields are stateless). -/
structure MockPartList (Item : Type) where
  _items : List Item

namespace MockPartList

variable {Item : Type}

/-- `__init__`: `self._items = []`. -/
def init : MockPartList Item := { _items := [] }

/-- `clear(self)`: `self._items = []`. -/
def clear (_pl : MockPartList Item) : MockPartList Item := { _items := [] }

/-- `addTopLevelItem(self, item)`: `self._items.append(item)`. -/
def addTopLevelItem (pl : MockPartList Item) (item : Item) :
    MockPartList Item :=
  { _items := pl._items ++ [item] }

/-- `topLevelItemCount(self)`: `return len(self._items)`. -/
def topLevelItemCount (pl : MockPartList Item) : Nat := pl._items.length

/-- `topLevelItem(self, index)`: `if 0 <= index < len(self._items):
return self._items[index]` else `return None`. -/
def topLevelItem (pl : MockPartList Item) (index : Int) : Option Item :=
  if 0 ≤ index ∧ index < (pl._items.length : Int) then
    pl._items[index.toNat]?
  else
    none

end MockPartList

/-- A single method call on a `MockQTreeWidgetItem`, used to reason about
arbitrary call histories on one item. -/
inductive ItemOp (Col Role Val Child : Type) where
  | setTextOp (column : Col) (t : String)
  | setDataOp (column : Col) (role : Role) (d : Val)
  | addChildOp (c : Child)
  deriving DecidableEq

/-- Run one recorded method call on an item. -/
def applyOp {Col Role Val Child : Type}
    (item : MockQTreeWidgetItem Col Role Val Child) :
    ItemOp Col Role Val Child → MockQTreeWidgetItem Col Role Val Child
  | .setTextOp c t => item.setText c t
  | .setDataOp c r d => item.setData c r d
  | .addChildOp c => item.addChild c

/-- Run a sequence of recorded method calls, oldest first. -/
def applyOps {Col Role Val Child : Type}
    (item : MockQTreeWidgetItem Col Role Val Child)
    (ops : List (ItemOp Col Role Val Child)) :
    MockQTreeWidgetItem Col Role Val Child :=
  ops.foldl applyOp item

/-- Run a sequence of `addChild` calls, oldest first. -/
def addChildren {Col Role Val Child : Type}
    (item : MockQTreeWidgetItem Col Role Val Child) (cs : List Child) :
    MockQTreeWidgetItem Col Role Val Child :=
  cs.foldl MockQTreeWidgetItem.addChild item

/-! Basic dict lemmas shared by several theorems. -/

theorem dictGet_dictSet_same {K V : Type} [DecidableEq K]
    (d : List (K × V)) (k : K) (v : V) :
    dictGet (dictSet d k v) k = some v := by
  simp [dictGet, dictSet]

theorem dictGet_dictSet_other {K V : Type} [DecidableEq K]
    (d : List (K × V)) (k k' : K) (v : V) (h : k' ≠ k) :
    dictGet (dictSet d k v) k' = dictGet d k' := by
  simp [dictGet, dictSet, h]

end MockGui

namespace MockGui

open MockQTreeWidgetItem

/-- C4: on any `MockQTreeWidgetItem`, for every column, role and value,
immediately after `setText(column, t)` the call `text(column)` returns
`t`, and immediately after `setData(column, role, d)` the call
`data(column, role)` returns the stored value `d` (as `some d`, the
embedding of the non-`None` Python value `d`). -/
theorem item_set_get_roundtrip {Col Role Val Child : Type}
    [DecidableEq Col] [DecidableEq Role]
    (item : MockQTreeWidgetItem Col Role Val Child)
    (c : Col) (r : Role) (t : String) (d : Val) :
    (item.setText c t).text c = t ∧
      (item.setData c r d).data c r = some d := by
  constructor
  · simp [MockQTreeWidgetItem.text, MockQTreeWidgetItem.setText,
      dictGet_dictSet_same]
  · simp [MockQTreeWidgetItem.data, MockQTreeWidgetItem.setData,
      dictGet_dictSet_same]

/-- C5: last write wins on both maps of a `MockQTreeWidgetItem`: after
`setText(c, t1); setText(c, t2)` the call `text(c)` returns `t2`, and
after `setData(c, r, d1); setData(c, r, d2)` the call `data(c, r)`
returns `d2`. -/
theorem item_last_write_wins {Col Role Val Child : Type}
    [DecidableEq Col] [DecidableEq Role]
    (item : MockQTreeWidgetItem Col Role Val Child)
    (c : Col) (r : Role) (t1 t2 : String) (d1 d2 : Val) :
    ((item.setText c t1).setText c t2).text c = t2 ∧
      ((item.setData c r d1).setData c r d2).data c r = some d2 := by
  constructor
  · simp [MockQTreeWidgetItem.text, MockQTreeWidgetItem.setText,
      dictGet_dictSet_same]
  · simp [MockQTreeWidgetItem.data, MockQTreeWidgetItem.setData,
      dictGet_dictSet_same]

/-- C6: `setText` and `setData` only affect the key they are given, and
neither touches the child list: `text(c')` is unchanged for every column
`c' ≠ c`, `data(c', r')` is unchanged for every pair `(c', r') ≠ (c, r)`
(including same column with a different role), each under its own
hypothesis only. -/
theorem item_set_frame_effects {Col Role Val Child : Type}
    [DecidableEq Col] [DecidableEq Role]
    (item : MockQTreeWidgetItem Col Role Val Child)
    (c c' : Col) (r r' : Role) (t : String) (d : Val) :
    (c' ≠ c → (item.setText c t).text c' = item.text c') ∧
      ((c', r') ≠ (c, r) →
        (item.setData c r d).data c' r' = item.data c' r') ∧
      (item.setText c t)._children = item._children ∧
      (item.setData c r d)._children = item._children := by
  refine ⟨fun hc => ?_, fun hp => ?_, rfl, rfl⟩
  · simp [MockQTreeWidgetItem.text, MockQTreeWidgetItem.setText,
      dictGet_dictSet_other _ _ _ _ hc]
  · simp [MockQTreeWidgetItem.data, MockQTreeWidgetItem.setData,
      dictGet_dictSet_other _ _ _ _ hp]

/-- Witness for C6 at a concrete item: the text part at columns 0 vs 1,
and the data part at the same column 0 with roles 0 vs 1. -/
theorem item_set_frame_effects_witness :
    (((MockQTreeWidgetItem.init : MockQTreeWidgetItem Nat Nat Nat Nat).setText
        0 "a").text 1 =
        (MockQTreeWidgetItem.init : MockQTreeWidgetItem Nat Nat Nat Nat).text 1) ∧
      (((MockQTreeWidgetItem.init : MockQTreeWidgetItem Nat Nat Nat Nat).setData
          0 0 5).data 0 1 =
        (MockQTreeWidgetItem.init : MockQTreeWidgetItem Nat Nat Nat Nat).data 0 1) ∧
      (((MockQTreeWidgetItem.init : MockQTreeWidgetItem Nat Nat Nat Nat).setText
          0 "a")._children =
        (MockQTreeWidgetItem.init : MockQTreeWidgetItem Nat Nat Nat Nat)._children) ∧
      (((MockQTreeWidgetItem.init : MockQTreeWidgetItem Nat Nat Nat Nat).setData
          0 0 5)._children =
        (MockQTreeWidgetItem.init : MockQTreeWidgetItem Nat Nat Nat Nat)._children) :=
  ⟨(item_set_frame_effects MockQTreeWidgetItem.init 0 1 0 1 "a" 5).1
      (by decide),
    (item_set_frame_effects MockQTreeWidgetItem.init 0 0 0 1 "a" 5).2.1
      (by decide),
    (item_set_frame_effects MockQTreeWidgetItem.init 0 1 0 1 "a" 5).2.2.1,
    (item_set_frame_effects MockQTreeWidgetItem.init 0 0 0 1 "a" 5).2.2.2⟩

/-- C7: `MockSignal.connect` is a no-op: for every slot it returns Python
`None` (`none`) and the unchanged signal state, and its result does not
depend on the slot at all (for any slot type), so it never invokes the
slot and changes no other observable state. -/
theorem mockSignal_connect_noop {Slot : Type} (sig : MockSignal)
    (s1 s2 : Slot) :
    sig.connect s1 = (sig, (none : Option Unit)) ∧
      sig.connect s1 = sig.connect s2 :=
  ⟨rfl, rfl⟩

theorem addChildren_children {Col Role Val Child : Type}
    (item : MockQTreeWidgetItem Col Role Val Child) (cs : List Child) :
    (addChildren item cs)._children = item._children ++ cs := by
  induction cs generalizing item with
  | nil => simp [addChildren]
  | cons c rest ih =>
    show (addChildren (item.addChild c) rest)._children = _
    rw [ih]
    simp [MockQTreeWidgetItem.addChild]

/-- C8: the child list preserves insertion order: after `n` `addChild`
calls on a fresh item, `childCount()` is `n` and `child(i)` is the `i`-th
child added, for every `i < n`. -/
theorem addChildren_preserves_order {Col Role Val Child : Type}
    (cs : List Child) (i : Nat) (h : i < cs.length) :
    (addChildren (MockQTreeWidgetItem.init :
        MockQTreeWidgetItem Col Role Val Child) cs).childCount = cs.length ∧
      (addChildren (MockQTreeWidgetItem.init :
        MockQTreeWidgetItem Col Role Val Child) cs).child ((i : Int)) =
        some (cs.get ⟨i, h⟩) := by
  have hch : (addChildren (MockQTreeWidgetItem.init :
      MockQTreeWidgetItem Col Role Val Child) cs)._children = cs := by
    rw [addChildren_children]
    simp [MockQTreeWidgetItem.init]
  constructor
  · simp [MockQTreeWidgetItem.childCount, hch]
  · have hcond : (0 : Int) ≤ (i : Int) ∧
        (i : Int) < ((addChildren (MockQTreeWidgetItem.init :
          MockQTreeWidgetItem Col Role Val Child) cs)._children.length : Int) := by
      rw [hch]
      omega
    rw [MockQTreeWidgetItem.child, if_pos hcond, hch]
    simp [Int.toNat_ofNat, List.getElem?_eq_getElem h]

/-- Witness for C8 on the concrete child list `[10, 20, 30]` at index 1. -/
theorem addChildren_preserves_order_witness :
    (addChildren (MockQTreeWidgetItem.init :
        MockQTreeWidgetItem Nat Nat Nat Nat) [10, 20, 30]).childCount = 3 ∧
      (addChildren (MockQTreeWidgetItem.init :
        MockQTreeWidgetItem Nat Nat Nat Nat) [10, 20, 30]).child
          ((1 : Nat) : Int) = some 20 :=
  addChildren_preserves_order [10, 20, 30] 1 (by decide)

/-- C9: indexed access on the mocks is total and returns `None` out of
range, both for `MockQTreeWidgetItem.child` and for
`MockPartList.topLevelItem`. -/
theorem index_out_of_range_returns_none {Col Role Val Child Item : Type}
    (item : MockQTreeWidgetItem Col Role Val Child)
    (pl : MockPartList Item) (i j : Int)
    (hi : i < 0 ∨ (item.childCount : Int) ≤ i)
    (hj : j < 0 ∨ (pl.topLevelItemCount : Int) ≤ j) :
    item.child i = none ∧ pl.topLevelItem j = none := by
  constructor
  · have hni : ¬(0 ≤ i ∧ i < (item._children.length : Int)) := by
      simp only [MockQTreeWidgetItem.childCount] at hi
      omega
    simp [MockQTreeWidgetItem.child, hni]
  · have hnj : ¬(0 ≤ j ∧ j < (pl._items.length : Int)) := by
      simp only [MockPartList.topLevelItemCount] at hj
      omega
    simp [MockPartList.topLevelItem, hnj]

/-- Witness for C9: a one-child item probed at index -1 and a one-item
part list probed at index 5. -/
theorem index_out_of_range_returns_none_witness :
    (((-1 : Int) < 0 ∨
        (((MockQTreeWidgetItem.init : MockQTreeWidgetItem Nat Nat Nat
          Nat).addChild 7).childCount : Int) ≤ -1) ∧
      ((5 : Int) < 0 ∨
        (((MockPartList.init : MockPartList Nat).addTopLevelItem
          9).topLevelItemCount : Int) ≤ 5)) ∧
      ((MockQTreeWidgetItem.init : MockQTreeWidgetItem Nat Nat Nat
          Nat).addChild 7).child (-1) = none ∧
        ((MockPartList.init : MockPartList Nat).addTopLevelItem
          9).topLevelItem 5 = none :=
  ⟨⟨Or.inl (by decide), Or.inr (by decide)⟩,
    index_out_of_range_returns_none _ _ (-1) 5
      (Or.inl (by decide)) (Or.inr (by decide))⟩

theorem applyOps_text_values_of_unset {Col Role Val Child : Type}
    [DecidableEq Col]
    (ops : List (ItemOp Col Role Val Child))
    (item : MockQTreeWidgetItem Col Role Val Child) (c : Col)
    (h : ∀ t, @ItemOp.setTextOp Col Role Val Child c t ∉ ops) :
    dictGet (applyOps item ops).text_values c =
      dictGet item.text_values c := by
  induction ops generalizing item with
  | nil => rfl
  | cons op rest ih =>
    have hrest : ∀ t, @ItemOp.setTextOp Col Role Val Child c t ∉ rest :=
      fun t hm => h t (List.mem_cons_of_mem _ hm)
    have hstep : dictGet (applyOp item op).text_values c =
        dictGet item.text_values c := by
      cases op with
      | setTextOp c' t =>
        have hc : c ≠ c' := by
          intro hcc
          exact h t (by rw [hcc]; exact List.mem_cons_self _ _)
        simp [applyOp, MockQTreeWidgetItem.setText,
          dictGet_dictSet_other _ _ _ _ hc]
      | setDataOp c' r d => rfl
      | addChildOp ch => rfl
    show dictGet (applyOps (applyOp item op) rest).text_values c = _
    rw [ih (applyOp item op) hrest, hstep]

theorem applyOps_data_values_of_unset {Col Role Val Child : Type}
    [DecidableEq Col] [DecidableEq Role]
    (ops : List (ItemOp Col Role Val Child))
    (item : MockQTreeWidgetItem Col Role Val Child) (c : Col) (r : Role)
    (h : ∀ d, @ItemOp.setDataOp Col Role Val Child c r d ∉ ops) :
    dictGet (applyOps item ops).data_values (c, r) =
      dictGet item.data_values (c, r) := by
  induction ops generalizing item with
  | nil => rfl
  | cons op rest ih =>
    have hrest : ∀ d, @ItemOp.setDataOp Col Role Val Child c r d ∉ rest :=
      fun d hm => h d (List.mem_cons_of_mem _ hm)
    have hstep : dictGet (applyOp item op).data_values (c, r) =
        dictGet item.data_values (c, r) := by
      cases op with
      | setTextOp c' t => rfl
      | setDataOp c' r' d =>
        have hk : (c, r) ≠ (c', r') := by
          intro hkk
          refine h d ?_
          rw [show c = c' from congrArg Prod.fst hkk,
            show r = r' from congrArg Prod.snd hkk]
          exact List.mem_cons_self _ _
        simp [applyOp, MockQTreeWidgetItem.setData,
          dictGet_dictSet_other _ _ _ _ hk]
      | addChildOp ch => rfl
    show dictGet (applyOps (applyOp item op) rest).data_values (c, r) = _
    rw [ih (applyOp item op) hrest, hstep]

/-- C10: reads of unset keys have fixed defaults, each under its own
hypothesis only: after any call history on a fresh item, if column `c`
was never passed to `setText` then `text(c)` returns the empty string,
and if `(c, r)` was never passed to `setData` then `data(c, r)` returns
`None` — even when column `c` itself was passed to `setText`. -/
theorem unset_keys_default_values {Col Role Val Child : Type}
    [DecidableEq Col] [DecidableEq Role]
    (ops : List (ItemOp Col Role Val Child)) (c : Col) (r : Role) :
    ((∀ t, @ItemOp.setTextOp Col Role Val Child c t ∉ ops) →
        (applyOps (MockQTreeWidgetItem.init :
          MockQTreeWidgetItem Col Role Val Child) ops).text c = "") ∧
      ((∀ d, @ItemOp.setDataOp Col Role Val Child c r d ∉ ops) →
        (applyOps (MockQTreeWidgetItem.init :
          MockQTreeWidgetItem Col Role Val Child) ops).data c r = none) := by
  constructor
  · intro h1
    rw [MockQTreeWidgetItem.text, applyOps_text_values_of_unset ops _ c h1]
    rfl
  · intro h2
    rw [MockQTreeWidgetItem.data, applyOps_data_values_of_unset ops _ c r h2]
    rfl

/-- Witness for C10: a history touching text column 0, data key (1, 1)
and the child list leaves `text 2` at `""` and `data 0 0` at `None` —
the latter even though column 0 was passed to `setText`. -/
theorem unset_keys_default_values_witness :
    (applyOps (MockQTreeWidgetItem.init : MockQTreeWidgetItem Nat Nat Nat Nat)
        [ItemOp.setTextOp 0 "x", ItemOp.setDataOp 1 1 5,
          ItemOp.addChildOp 7]).text 2 = "" ∧
      (applyOps (MockQTreeWidgetItem.init : MockQTreeWidgetItem Nat Nat Nat Nat)
        [ItemOp.setTextOp 0 "x", ItemOp.setDataOp 1 1 5,
          ItemOp.addChildOp 7]).data 0 0 = none :=
  ⟨(unset_keys_default_values
      [ItemOp.setTextOp 0 "x", ItemOp.setDataOp 1 1 5, ItemOp.addChildOp 7]
      2 0).1 (by intro t; simp),
    (unset_keys_default_values
      [ItemOp.setTextOp 0 "x", ItemOp.setDataOp 1 1 5, ItemOp.addChildOp 7]
      0 0).2 (by intro d; simp)⟩

end MockGui

namespace InsertLink

/-!
`TaskAssemblyInsertLink.accept` lives in `CommandInsertLink.py`, which is
not part of the excerpt; only its tests are.  The insertion-queue
processing it performs is therefore modelled from the spec (sections 7
and 8): entries lacking an expected identity reference, or whose
reference resolves to an absent name, are skipped rather than raising,
and acceptance still reports success.  The record shapes are the ones the
test `test_mixed_valid_and_invalid_objects` builds.
-/

/-- A Python attribute slot: the attribute may be absent (`hasattr` is
false), present but `None`, or present with a value. -/
inductive PyAttr (α : Type) where
  | absent : PyAttr α
  | pynone : PyAttr α
  | val : α → PyAttr α
  deriving DecidableEq

/-- The `LinkedObject` value carried by a record's `addedObject`, as the
test builds it: an object with a `Name` attribute that is a string or
`None`. -/
structure LinkedObjectVal where
  Name : PyAttr String
  deriving DecidableEq

/-- The `addedObject` of an insertion record, as the test builds it:
`Name`, `Label` and `LinkedObject` attributes, any of which a malformed
record may lack or set to `None`. -/
structure AddedObject where
  Name : PyAttr String
  Label : PyAttr String
  LinkedObject : PyAttr LinkedObjectVal
  deriving DecidableEq

/-- The translation vector the test attaches to each record
(`App.Vector(x, y, z)`). -/
structure Vector3 where
  x : Int
  y : Int
  z : Int
  deriving DecidableEq

/-- One entry of `task.insertionStack`: the dict
`{"addedObject": ..., "translation": ...}` the test appends. -/
structure InsertionRecord where
  addedObject : AddedObject
  translation : Vector3
  deriving DecidableEq

/-- The document against which link names are resolved: the names of the
objects that exist in it. -/
structure Document where
  objectNames : List String
  deriving DecidableEq

/-- Name lookup in the document: the object when the name exists, `None`
otherwise (the test environment's `getObject` always returns `None`). -/
def Document.getObject (doc : Document) (name : String) : Option String :=
  if name ∈ doc.objectNames then some name else none

/-- Modelled from the spec: the "expected identity reference" of an
insertion record (`CommandInsertLink.py` is not in the excerpt).  A
record carries one exactly when its `addedObject` has a `Name`
attribute, has a `LinkedObject` attribute that is not `None`, and that
`LinkedObject` has a `Name` that is a string — the four malformed shapes
exercised by the test are exactly the records without one. -/
def recordIdentity (r : InsertionRecord) : Option String :=
  match r.addedObject.Name with
  | PyAttr.val _ =>
    match r.addedObject.LinkedObject with
    | PyAttr.val lo =>
      match lo.Name with
      | PyAttr.val n => some n
      | _ => none
    | _ => none
  | _ => none

/-- Modelled from the spec: `accept()` walks the insertion stack in
order; an entry without an identity reference, or whose reference
resolves to an absent name, is skipped; the surviving entries are
committed as links.  The `Except` layer records whether any step raised
a Python exception. -/
def processStack (doc : Document) :
    List InsertionRecord → Except String (List String)
  | [] => Except.ok []
  | r :: rest =>
    match recordIdentity r with
    | none => processStack doc rest
    | some n =>
      match doc.getObject n with
      | none => processStack doc rest
      | some obj =>
        match processStack doc rest with
        | Except.ok links => Except.ok (obj :: links)
        | Except.error e => Except.error e

/-- Modelled from the spec: `TaskAssemblyInsertLink.accept()` processes
the insertion stack and reports success (`True`); `Except.error` would
be a raised exception. -/
def accept (doc : Document) (stack : List InsertionRecord) :
    Except String Bool :=
  match processStack doc stack with
  | Except.ok _ => Except.ok true
  | Except.error e => Except.error e

/-- A well-formed record: one that carries an identity reference. -/
def wellFormedRecord (r : InsertionRecord) : Prop :=
  ∃ n, recordIdentity r = some n

/-- A malformed record of one of the four shapes the test builds: no
`LinkedObject` attribute, `LinkedObject` is `None`, `LinkedObject.Name`
is `None`, or no `Name` attribute. -/
def malformedRecord (r : InsertionRecord) : Prop :=
  r.addedObject.LinkedObject = PyAttr.absent ∨
    r.addedObject.LinkedObject = PyAttr.pynone ∨
    (∃ lo, r.addedObject.LinkedObject = PyAttr.val lo ∧
      lo.Name = PyAttr.pynone) ∨
    r.addedObject.Name = PyAttr.absent

theorem processStack_exists_ok (doc : Document)
    (stack : List InsertionRecord) :
    ∃ l, processStack doc stack = Except.ok l := by
  induction stack with
  | nil => exact ⟨[], rfl⟩
  | cons r rest ih =>
    obtain ⟨l, hl⟩ := ih
    cases hid : recordIdentity r with
    | none => exact ⟨l, by simp [processStack, hid, hl]⟩
    | some n =>
      cases hobj : doc.getObject n with
      | none => exact ⟨l, by simp [processStack, hid, hobj, hl]⟩
      | some obj => exact ⟨obj :: l, by simp [processStack, hid, hobj, hl]⟩

theorem accept_eq_ok (doc : Document) (stack : List InsertionRecord) :
    accept doc stack = Except.ok true := by
  obtain ⟨l, hl⟩ := processStack_exists_ok doc stack
  simp [accept, hl]

/-- The valid record of `test_mixed_valid_and_invalid_objects`. -/
def validRecord : InsertionRecord :=
  { addedObject :=
      { Name := PyAttr.val "ValidObject",
        Label := PyAttr.val "Valid Object",
        LinkedObject :=
          PyAttr.val { Name := PyAttr.val "ValidLinkedObjectName" } },
    translation := ⟨1, 1, 1⟩ }

/-- Test record whose `LinkedObject` is `None`. -/
def invalidRecord1 : InsertionRecord :=
  { addedObject :=
      { Name := PyAttr.val "InvalidObject1",
        Label := PyAttr.val "Invalid Object 1",
        LinkedObject := PyAttr.pynone },
    translation := ⟨2, 2, 2⟩ }

/-- Test record with no `LinkedObject` attribute. -/
def invalidRecord2 : InsertionRecord :=
  { addedObject :=
      { Name := PyAttr.val "InvalidObject2",
        Label := PyAttr.val "Invalid Object 2",
        LinkedObject := PyAttr.absent },
    translation := ⟨3, 3, 3⟩ }

/-- Test record whose `LinkedObject.Name` is `None`. -/
def invalidRecord3 : InsertionRecord :=
  { addedObject :=
      { Name := PyAttr.val "InvalidObject3",
        Label := PyAttr.val "Invalid Object 3",
        LinkedObject := PyAttr.val { Name := PyAttr.pynone } },
    translation := ⟨4, 4, 4⟩ }

/-- Test record whose `addedObject` has no `Name` attribute. -/
def invalidRecord4 : InsertionRecord :=
  { addedObject :=
      { Name := PyAttr.absent,
        Label := PyAttr.val "Invalid Object 4",
        LinkedObject := PyAttr.val { Name := PyAttr.val "Something" } },
    translation := ⟨5, 5, 5⟩ }

/-- C1: for every insertion stack containing any mix of well-formed
records and malformed records (of the four shapes the test builds),
`accept()` returns `True` and raises no exception (`Except.ok true`,
never `Except.error`). -/
theorem accept_mixed_stack_returns_true (doc : Document)
    (stack : List InsertionRecord)
    (h : ∀ r ∈ stack, wellFormedRecord r ∨ malformedRecord r) :
    accept doc stack = Except.ok true := by
  obtain ⟨l, hl⟩ := processStack_exists_ok doc stack
  simp [accept, hl]

/-- Witness for C1: the five records of
`test_mixed_valid_and_invalid_objects`, against a document in which the
valid record's link name exists. -/
theorem accept_mixed_stack_returns_true_witness :
    accept ⟨["ValidLinkedObjectName"]⟩
        [validRecord, invalidRecord1, invalidRecord2, invalidRecord3,
          invalidRecord4] = Except.ok true :=
  accept_mixed_stack_returns_true _ _ (by
    intro r hr
    simp only [List.mem_cons, List.not_mem_nil, or_false] at hr
    rcases hr with rfl | rfl | rfl | rfl | rfl
    · exact Or.inl ⟨"ValidLinkedObjectName", rfl⟩
    · exact Or.inr (Or.inr (Or.inl rfl))
    · exact Or.inr (Or.inl rfl)
    · exact Or.inr (Or.inr (Or.inr (Or.inl
        ⟨{ Name := PyAttr.pynone }, rfl, rfl⟩)))
    · exact Or.inr (Or.inr (Or.inr (Or.inr rfl))))

/-- C2: every entry of the insertion stack lacking an expected identity
reference, or whose reference resolves to no object, is skipped without
raising — removing it from the stack does not change the processing
result — and `accept()` still reports success. -/
theorem accept_skips_unresolvable_entries (doc : Document)
    (pre rest : List InsertionRecord) (r : InsertionRecord)
    (h : recordIdentity r = none ∨
      ∃ n, recordIdentity r = some n ∧ doc.getObject n = none) :
    processStack doc (pre ++ r :: rest) = processStack doc (pre ++ rest) ∧
      accept doc (pre ++ r :: rest) = Except.ok true := by
  have hskip : ∀ rest' : List InsertionRecord,
      processStack doc (r :: rest') = processStack doc rest' := by
    intro rest'
    rcases h with hnone | ⟨n, hn, hres⟩
    · simp [processStack, hnone]
    · simp [processStack, hn, hres]
  have hmain : processStack doc (pre ++ r :: rest) =
      processStack doc (pre ++ rest) := by
    induction pre with
    | nil => simpa using hskip rest
    | cons p pre' ih =>
      show processStack doc (p :: (pre' ++ r :: rest)) =
        processStack doc (p :: (pre' ++ rest))
      cases hid : recordIdentity p with
      | none => simpa [processStack, hid] using ih
      | some n =>
        cases hobj : doc.getObject n with
        | none => simpa [processStack, hid, hobj] using ih
        | some obj => simp [processStack, hid, hobj, ih]
  exact ⟨hmain, by
    obtain ⟨l, hl⟩ := processStack_exists_ok doc (pre ++ r :: rest)
    simp [accept, hl]⟩

/-- Witness for C2: the record whose `LinkedObject` is `None`, between a
valid record and the record whose `LinkedObject.Name` is `None`. -/
theorem accept_skips_unresolvable_entries_witness :
    processStack ⟨["ValidLinkedObjectName"]⟩
        ([validRecord] ++ invalidRecord1 :: [invalidRecord3]) =
        processStack ⟨["ValidLinkedObjectName"]⟩
          ([validRecord] ++ [invalidRecord3]) ∧
      accept ⟨["ValidLinkedObjectName"]⟩
        ([validRecord] ++ invalidRecord1 :: [invalidRecord3]) =
        Except.ok true :=
  accept_skips_unresolvable_entries _ _ _ _ (Or.inl rfl)

/-- C3: for an empty insertion stack, `accept()` returns `True` and
raises no exception. -/
theorem accept_empty_stack_returns_true (doc : Document) :
    accept doc [] = Except.ok true :=
  rfl

end InsertLink
